import Mathlib

/-!
Verification of the data-refresh/history/coloring core of the
Air-Quality-Dashboard repository (`app.py`, `aqi_client.py`).

The Python code is shallowly embedded: JSON payloads become the `PyVal`
inductive, Python exceptions become the `PyErr` inductive, and each source
function becomes a Lean function over these types, returning
`Except PyErr _` where the Python code can raise.
-/

set_option autoImplicit false

/-- A Python/JSON value as handled by the dashboard code: `None`, strings,
integers, lists and string-keyed dicts (modelled as association lists in
insertion order, keys unique). -/
inductive PyVal where
  | none
  | str (s : String)
  | int (n : Int)
  | list (xs : List PyVal)
  | dict (es : List (String × PyVal))

mutual

def PyVal.decEq : (a b : PyVal) → Decidable (a = b)
  | .none, .none => isTrue rfl
  | .str a, .str b =>
    if h : a = b then isTrue (congrArg PyVal.str h)
    else isFalse (fun hh => h (by injection hh))
  | .int a, .int b =>
    if h : a = b then isTrue (congrArg PyVal.int h)
    else isFalse (fun hh => h (by injection hh))
  | .list xs, .list ys =>
    match PyVal.decEqList xs ys with
    | isTrue h => isTrue (congrArg PyVal.list h)
    | isFalse h => isFalse (fun hh => h (by injection hh))
  | .dict es, .dict fs =>
    match PyVal.decEqDict es fs with
    | isTrue h => isTrue (congrArg PyVal.dict h)
    | isFalse h => isFalse (fun hh => h (by injection hh))
  | .none, .str _ => isFalse (fun h => PyVal.noConfusion h)
  | .none, .int _ => isFalse (fun h => PyVal.noConfusion h)
  | .none, .list _ => isFalse (fun h => PyVal.noConfusion h)
  | .none, .dict _ => isFalse (fun h => PyVal.noConfusion h)
  | .str _, .none => isFalse (fun h => PyVal.noConfusion h)
  | .str _, .int _ => isFalse (fun h => PyVal.noConfusion h)
  | .str _, .list _ => isFalse (fun h => PyVal.noConfusion h)
  | .str _, .dict _ => isFalse (fun h => PyVal.noConfusion h)
  | .int _, .none => isFalse (fun h => PyVal.noConfusion h)
  | .int _, .str _ => isFalse (fun h => PyVal.noConfusion h)
  | .int _, .list _ => isFalse (fun h => PyVal.noConfusion h)
  | .int _, .dict _ => isFalse (fun h => PyVal.noConfusion h)
  | .list _, .none => isFalse (fun h => PyVal.noConfusion h)
  | .list _, .str _ => isFalse (fun h => PyVal.noConfusion h)
  | .list _, .int _ => isFalse (fun h => PyVal.noConfusion h)
  | .list _, .dict _ => isFalse (fun h => PyVal.noConfusion h)
  | .dict _, .none => isFalse (fun h => PyVal.noConfusion h)
  | .dict _, .str _ => isFalse (fun h => PyVal.noConfusion h)
  | .dict _, .int _ => isFalse (fun h => PyVal.noConfusion h)
  | .dict _, .list _ => isFalse (fun h => PyVal.noConfusion h)

def PyVal.decEqList : (xs ys : List PyVal) → Decidable (xs = ys)
  | [], [] => isTrue rfl
  | [], _ :: _ => isFalse (fun h => List.noConfusion h)
  | _ :: _, [] => isFalse (fun h => List.noConfusion h)
  | x :: xs, y :: ys =>
    match PyVal.decEq x y, PyVal.decEqList xs ys with
    | isTrue h1, isTrue h2 => isTrue (by rw [h1, h2])
    | isFalse h1, _ => isFalse (fun h => h1 (by injection h))
    | _, isFalse h2 => isFalse (fun h => h2 (by injection h))

def PyVal.decEqDict : (es fs : List (String × PyVal)) → Decidable (es = fs)
  | [], [] => isTrue rfl
  | [], _ :: _ => isFalse (fun h => List.noConfusion h)
  | _ :: _, [] => isFalse (fun h => List.noConfusion h)
  | (k, v) :: es, (l, w) :: fs =>
    if hk : k = l then
      match PyVal.decEq v w, PyVal.decEqDict es fs with
      | isTrue h1, isTrue h2 => isTrue (by rw [hk, h1, h2])
      | isFalse h1, _ =>
        isFalse (fun h => h1 (by injection h with h3 h4; exact congrArg Prod.snd h3))
      | _, isFalse h2 => isFalse (fun h => h2 (by injection h))
    else
      isFalse (fun h => hk (by injection h with h3 h4; exact congrArg Prod.fst h3))

end

instance : DecidableEq PyVal := PyVal.decEq

instance {ε α : Type} [DecidableEq ε] [DecidableEq α] : DecidableEq (Except ε α)
  | .ok a, .ok b =>
    if h : a = b then isTrue (by rw [h]) else isFalse (fun hh => h (by injection hh))
  | .error e, .error f =>
    if h : e = f then isTrue (by rw [h]) else isFalse (fun hh => h (by injection hh))
  | .ok _, .error _ => isFalse (fun h => Except.noConfusion h)
  | .error _, .ok _ => isFalse (fun h => Except.noConfusion h)

/-- The Python exception kinds raised by the embedded code: `RuntimeError`
(raised explicitly by `_get_token` and `fetch_aqi`),
`requests.exceptions.HTTPError` (from `response.raise_for_status()`),
and the built-in faults `KeyError`, `TypeError`, `ValueError`,
`AttributeError` that nested subscripting / unpacking / `.get` raise on a
wrong-shaped value. -/
inductive PyErr where
  | runtimeError (msg : String)
  | httpError (code : Nat)
  | keyError (key : String)
  | typeError (msg : String)
  | valueError (msg : String)
  | attributeError (msg : String)
deriving DecidableEq, Repr

/-- The exception class of an error, forgetting its message payload: this is
what a Python `except SomeClass:` handler can discriminate on. -/
inductive PyErrClass where
  | runtimeError
  | httpError
  | keyError
  | typeError
  | valueError
  | attributeError
deriving DecidableEq, Repr

def PyErr.cls : PyErr → PyErrClass
  | .runtimeError _ => .runtimeError
  | .httpError _ => .httpError
  | .keyError _ => .keyError
  | .typeError _ => .typeError
  | .valueError _ => .valueError
  | .attributeError _ => .attributeError

/-- `True` for the built-in exception kinds Python itself raises for
ordinary operations on wrong-shaped data (missing dict key, subscripting a
non-dict, bad unpack), as opposed to an error type dedicated to payload
validation. -/
def PyErr.isGenericFault : PyErr → Bool
  | .keyError _ => true
  | .typeError _ => true
  | .valueError _ => true
  | .attributeError _ => true
  | _ => false

/-- First-match association-list lookup (Python dict keys are unique, so
first match is the only match). -/
def lookupStr : List (String × PyVal) → String → Option PyVal
  | [], _ => Option.none
  | (k, v) :: es, key => if k = key then some v else lookupStr es key

/-- Python subscript `v[key]` with a string key: `KeyError` on a dict
missing the key, `TypeError` on a non-dict. -/
def getItem (v : PyVal) (key : String) : Except PyErr PyVal :=
  match v with
  | .dict es =>
    match lookupStr es key with
    | some x => .ok x
    | Option.none => .error (.keyError key)
  | .str _ => .error (.typeError "string indices must be integers")
  | _ => .error (.typeError "object is not subscriptable")

/-- Python `v.get(key, default)`: defined on dicts only; a non-dict has no
`get` attribute. -/
def pyGet (v : PyVal) (key : String) (default : PyVal) : Except PyErr PyVal :=
  match v with
  | .dict es => .ok ((lookupStr es key).getD default)
  | _ => .error (.attributeError "object has no attribute get")

/-- Python 2-tuple unpacking `a, b = v`: works on a 2-element list (and on a
2-character string, since strings are iterable); wrong arity is a
`ValueError`, a non-iterable a `TypeError`. -/
def unpack2 (v : PyVal) : Except PyErr (PyVal × PyVal) :=
  match v with
  | .list [a, b] => .ok (a, b)
  | .list _ => .error (.valueError "unpack arity mismatch")
  | .str s =>
    match s.data with
    | [a, b] => .ok (.str (String.singleton a), .str (String.singleton b))
    | _ => .error (.valueError "unpack arity mismatch")
  | _ => .error (.typeError "cannot unpack non-iterable")

/-- The single-quote character, used by Python `repr` of strings. -/
def pyQuote : String := String.singleton (Char.ofNat 39)

mutual

/-- Python `repr` of a value (string escaping inside `repr` is not
modelled; no claim exercises it). -/
def pyRepr : PyVal → String
  | .none => "None"
  | .str s => pyQuote ++ s ++ pyQuote
  | .int n => toString n
  | .list xs => "[" ++ pyReprItems xs ++ "]"
  | .dict es => "\x7b" ++ pyReprEntries es ++ "\x7d"

def pyReprItems : List PyVal → String
  | [] => ""
  | [x] => pyRepr x
  | x :: y :: xs => pyRepr x ++ ", " ++ pyReprItems (y :: xs)

def pyReprEntries : List (String × PyVal) → String
  | [] => ""
  | [(k, v)] => pyRepr (.str k) ++ ": " ++ pyRepr v
  | (k, v) :: e :: es => pyRepr (.str k) ++ ": " ++ pyRepr v ++ ", " ++ pyReprEntries (e :: es)

end

/-- Python `str(v)`: identity on strings, `repr` otherwise. -/
def pyStr (v : PyVal) : String :=
  match v with
  | .str s => s
  | x => pyRepr x

/-!
## Severity Classifier (`app.py`: `COLORS`, `aqi_color`)
-/

/-- One row of the severity table: `(low, high, color, label)`.
Bounds are Python ints. -/
structure Band where
  low : Int
  high : Int
  color : String
  label : String
deriving DecidableEq, Repr

/-- The fixed severity table `COLORS` of `app.py` (labels are the Turkish
band names of the source; `"İyi"` = Good, `"Orta"` = Moderate, …,
`"Tehlikeli"` = Hazardous). -/
def COLORS : List Band :=
  [⟨0, 50, "#009966", "İyi"⟩,
   ⟨51, 100, "#ffde33", "Orta"⟩,
   ⟨101, 150, "#ff9933", "Duyarlı"⟩,
   ⟨151, 200, "#cc0033", "Sağlıksız"⟩,
   ⟨201, 300, "#660099", "Çok Sağlıksız"⟩,
   ⟨301, 500, "#7e0023", "Tehlikeli"⟩]

/-- `aqi_color` of `app.py`: first band with `low <= val <= high` wins
(the `for`/`return` loop is `List.find?`); if no band matches, the loop
falls through to the hard-coded worst color `"#7e0023"`. -/
def aqi_color (val : Int) : String :=
  match COLORS.find? (fun b => decide (b.low ≤ val ∧ val ≤ b.high)) with
  | some b => b.color
  | Option.none => "#7e0023"

/-!
## Credential Resolver (`aqi_client.py`: `_get_token`)

`os.getenv` is modelled by an `Option String` argument (`none` = variable
unset); the Streamlit secrets lookup `st.secrets["WAQI_TOKEN"]` by another
`Option String` (`none` = the lookup raised for any reason: import failure,
store unavailable, key missing — all are caught by the bare `except`).
-/

/-- The `try/except` fallback block of `_get_token`: secrets value if the
lookup succeeds, else the normalized `RuntimeError`. -/
def getTokenSecrets (secrets : Option String) : Except PyErr String :=
  match secrets with
  | some v => .ok v
  | Option.none =>
    .error (.runtimeError "WAQI_TOKEN not found in environment variables or Streamlit secrets")

/-- `_get_token` of `aqi_client.py`. `if token:` tests string truthiness,
so an empty-string environment value falls through to the secrets branch. -/
def getToken (env : Option String) (secrets : Option String) : Except PyErr String :=
  match env with
  | some t => if t = "" then getTokenSecrets secrets else .ok t
  | Option.none => getTokenSecrets secrets

/-!
## AQI Source Client (`aqi_client.py`: `fetch_aqi`)

The transport is modelled by the `HttpResponse` the `requests.get` call
produced: its HTTP status code and its decoded JSON body. (A network-level
failure raises inside `requests.get` itself and never reaches this code;
the claims about `fetch_aqi` concern completed responses.)
-/

structure HttpResponse where
  statusCode : Nat
  body : PyVal
deriving DecidableEq

/-- `response.raise_for_status()`: raises `requests.exceptions.HTTPError`
for 4xx and 5xx status codes. -/
def raise_for_status (r : HttpResponse) : Except PyErr Unit :=
  if 400 ≤ r.statusCode ∧ r.statusCode < 600 then .error (.httpError r.statusCode)
  else .ok ()

/-- `fetch_aqi` of `aqi_client.py`, from the point the response exists:
check transport status, then the payload's `status` field; a non-`"ok"`
status raises `RuntimeError(str(data.get("data")))`; otherwise the payload
is returned unchanged. -/
def fetch_aqi (resp : HttpResponse) : Except PyErr PyVal := do
  raise_for_status resp
  let data := resp.body
  let s ← getItem data "status"
  if s ≠ PyVal.str "ok" then
    let detail ← pyGet data "data" PyVal.none
    .error (.runtimeError (pyStr detail))
  else
    .ok data

/-!
## Snapshot Normalizer (`app.py`: `fetch_live`)
-/

/-- Python dict insertion: replace the value in place if the key exists,
else append the pair — the semantics of building a dict comprehension. -/
def dictInsert (es : List (String × PyVal)) (k : String) (v : PyVal) :
    List (String × PyVal) :=
  match es with
  | [] => [(k, v)]
  | (k0, v0) :: rest =>
    if k0 = k then (k0, v) :: rest else (k0, v0) :: dictInsert rest k v

/-- Python `str.upper()`, character-wise (the pollutant codes the upstream
API emits are ASCII, where this agrees with Python's Unicode upper-casing). -/
def pyUpper (s : String) : String := String.mk (s.data.map Char.toUpper)

/-- The comprehension `{k.upper(): v["v"] for k, v in (...).items()}`:
each entry's value must itself subscript as `v["v"]`. -/
def buildComps (acc : List (String × PyVal)) :
    List (String × PyVal) → Except PyErr (List (String × PyVal))
  | [] => .ok acc
  | (k, v) :: rest => do
    let c ← getItem v "v"
    buildComps (dictInsert acc (pyUpper k) c) rest

/-- `.items()` on the value of `.get("iaqi", {})`: defined on dicts only. -/
def compsOf (ia : PyVal) : Except PyErr (List (String × PyVal)) :=
  match ia with
  | .dict ies => buildComps [] ies
  | _ => .error (.attributeError "object has no attribute items")

/-- The normalized reading `fetch_live` returns:
`(ts, aqi_val, comps, lat, lon)`. `ts` holds the raw epoch value
`data.time.v`; `datetime.fromtimestamp` is an injective decoding of that
value on a fixed platform and is not modelled further. -/
structure Snapshot where
  ts : PyVal
  aqi : PyVal
  comps : List (String × PyVal)
  lat : PyVal
  lon : PyVal
deriving DecidableEq

/-- `fetch_live` of `app.py` after `fetch_aqi` returned `raw`: the
Snapshot Normalizer. Field accesses happen in source order
(time, aqi, iaqi-comprehension, geo), so the first missing required field
determines the raised error. -/
def fetch_live (raw : PyVal) : Except PyErr Snapshot := do
  let d ← getItem raw "data"
  let t ← getItem d "time"
  let tv ← getItem t "v"
  let aqi_val ← getItem d "aqi"
  let ia ← pyGet d "iaqi" (PyVal.dict [])
  let comps ← compsOf ia
  let city ← getItem d "city"
  let geo ← getItem city "geo"
  let (lat, lon) ← unpack2 geo
  return { ts := tv, aqi := aqi_val, comps := comps, lat := lat, lon := lon }

/-!
## History Ledger (`app.py` lines 107–112)

One stored entry `{"ts": ts, "aqi": aqi}`. The `datetime` values compared
by `history[-1]["ts"] != ts` are modelled by the epoch `PyVal`s they were
decoded from (`fromtimestamp` is injective, so equality is preserved).
-/

structure HistEntry where
  ts : PyVal
  aqi : PyVal
deriving DecidableEq

/-- The append step `if not history or history[-1]["ts"] != ts:
history.append({"ts": ts, "aqi": aqi})`. -/
def appendHist (history : List HistEntry) (ts aqi : PyVal) : List HistEntry :=
  match history.getLast? with
  | Option.none => history ++ [⟨ts, aqi⟩]
  | some lastE => if lastE.ts ≠ ts then history ++ [⟨ts, aqi⟩] else history

/-- A whole session: the ledger obtained by running the append step once
per render cycle, on the successive `(ts, aqi)` readings, starting from
the empty list `st.session_state` initializes. -/
def runAppends (inputs : List (PyVal × PyVal)) : List HistEntry :=
  inputs.foldl (fun h p => appendHist h p.1 p.2) []

/-- A well-formed WAQI feed payload used as a concrete witness input. -/
def samplePayload : PyVal :=
  PyVal.dict [("data", PyVal.dict
    [("time", PyVal.dict [("v", PyVal.int 100)]),
     ("aqi", PyVal.int 42),
     ("iaqi", PyVal.dict [("pm25", PyVal.dict [("v", PyVal.int 7)])]),
     ("city", PyVal.dict [("geo", PyVal.list [PyVal.int 36, PyVal.int 30])])])]

/-- The snapshot `fetch_live` produces from `samplePayload`. -/
def sampleSnap : Snapshot :=
  ⟨PyVal.int 100, PyVal.int 42, [("PM25", PyVal.int 7)], PyVal.int 36, PyVal.int 30⟩

/-- A well-formed WAQI feed payload with no pollutant breakdown at all
(no `iaqi` key). -/
def sampleNoIaqi : PyVal :=
  PyVal.dict [("data", PyVal.dict
    [("time", PyVal.dict [("v", PyVal.int 100)]),
     ("aqi", PyVal.int 42),
     ("city", PyVal.dict [("geo", PyVal.list [PyVal.int 36, PyVal.int 30])])])]

/-!
## Theorems
-/

set_option maxRecDepth 4000 in
/-- C1: the severity classifier follows the fixed EPA-style table:
index 0 and 50 map to the Good band color `"#009966"` (`"İyi"`), 51 to the
Moderate color `"#ffde33"` (`"Orta"`), 500 to the Hazardous color
`"#7e0023"` (`"Tehlikeli"`); for every index exceeding all upper bounds
(v > 500, e.g. 10000) no band matches and the classifier falls back to the
worst-band color instead of erroring; and every in-domain index
(0 ≤ v ≤ 500) is matched by exactly one band. -/
theorem aqi_color_band_table :
    aqi_color 0 = "#009966" ∧ aqi_color 50 = "#009966" ∧
    aqi_color 51 = "#ffde33" ∧ aqi_color 500 = "#7e0023" ∧
    aqi_color 10000 = "#7e0023" ∧
    COLORS.find? (fun b => decide (b.low ≤ (10000 : Int) ∧ (10000 : Int) ≤ b.high))
      = Option.none ∧
    (∀ v : Int, 500 < v →
      COLORS.find? (fun b => decide (b.low ≤ v ∧ v ≤ b.high)) = Option.none ∧
      aqi_color v = "#7e0023") ∧
    (∀ v : Int, 0 ≤ v → v ≤ 500 →
      (COLORS.filter (fun b => decide (b.low ≤ v ∧ v ≤ b.high))).length = 1) := by
  refine ⟨by decide, by decide, by decide, by decide, by decide, by decide, ?_, ?_⟩
  · intro v hv
    have hfind : COLORS.find? (fun b => decide (b.low ≤ v ∧ v ≤ b.high)) = Option.none := by
      apply List.find?_eq_none.mpr
      intro b hb
      fin_cases hb <;> simp <;> omega
    exact ⟨hfind, by unfold aqi_color; rw [hfind]⟩
  · intro v h0 h5
    have key : ∀ n : Nat, n ≤ 500 →
        (COLORS.filter (fun b => decide (b.low ≤ (n : Int) ∧ (n : Int) ≤ b.high))).length = 1 := by
      decide
    have hv : v = ((v.toNat : Nat) : Int) := (Int.toNat_of_nonneg h0).symm
    rw [hv]
    exact key v.toNat (by omega)

/-- Witness for `aqi_color_band_table`: exactly one band matches index 123,
and index 777 exceeds every upper bound yet yields the worst-band color. -/
theorem aqi_color_band_table_witness :
    (COLORS.filter (fun b => decide (b.low ≤ (123 : Int) ∧ (123 : Int) ≤ b.high))).length = 1 ∧
    (COLORS.find? (fun b => decide (b.low ≤ (777 : Int) ∧ (777 : Int) ≤ b.high))
        = Option.none ∧
      aqi_color 777 = "#7e0023") :=
  ⟨aqi_color_band_table.2.2.2.2.2.2.2 123 (by decide) (by decide),
   aqi_color_band_table.2.2.2.2.2.2.1 777 (by decide)⟩

/-- C10: every negative index matches no band of the table, and the
classifier silently returns the worst-band color `"#7e0023"`, the same
result as the over-500 fallback. -/
theorem aqi_color_negative_fallback :
    ∀ v : Int, v < 0 →
      COLORS.find? (fun b => decide (b.low ≤ v ∧ v ≤ b.high)) = Option.none ∧
      aqi_color v = "#7e0023" := by
  intro v hv
  have hfind : COLORS.find? (fun b => decide (b.low ≤ v ∧ v ≤ b.high)) = Option.none := by
    apply List.find?_eq_none.mpr
    intro b hb
    fin_cases hb <;> simp <;> omega
  exact ⟨hfind, by unfold aqi_color; rw [hfind]⟩

/-- Witness for `aqi_color_negative_fallback` at index −1. -/
theorem aqi_color_negative_fallback_witness :
    COLORS.find? (fun b => decide (b.low ≤ (-1 : Int) ∧ (-1 : Int) ≤ b.high)) = Option.none ∧
    aqi_color (-1) = "#7e0023" :=
  aqi_color_negative_fallback (-1) (by decide)

/-- Appending one element never returns the same list. -/
theorem concat_ne_self {α : Type} (l : List α) (a : α) : l ++ [a] ≠ l := by
  intro heq
  have := congrArg List.length heq
  simp at this

/-- C2: the history append is a no-op exactly when the ledger is non-empty
and the most recent entry's timestamp equals the new one; in every other
case the snapshot is appended at the end; and appending two readings with
the same timestamp in succession keeps only the first, whatever their
index values. -/
theorem history_append_dedup :
    (∀ (h : List HistEntry) (ts aqi : PyVal),
        appendHist h ts aqi = h ↔ h.getLast?.map HistEntry.ts = some ts) ∧
    (∀ (h : List HistEntry) (ts aqi : PyVal),
        h.getLast?.map HistEntry.ts ≠ some ts →
        appendHist h ts aqi = h ++ [⟨ts, aqi⟩]) ∧
    (∀ (h : List HistEntry) (ts a1 a2 : PyVal),
        appendHist (appendHist h ts a1) ts a2 = appendHist h ts a1) ∧
    (∀ ts a1 a2 : PyVal, appendHist (appendHist [] ts a1) ts a2 = [⟨ts, a1⟩]) := by
  refine ⟨?_, ?_, ?_, ?_⟩
  · intro h ts aqi
    cases hL : h.getLast? with
    | none =>
      simp only [appendHist, hL, Option.map_none']
      constructor
      · intro heq; exact absurd heq (concat_ne_self h _)
      · intro heq; simp at heq
    | some lastE =>
      simp only [appendHist, hL, Option.map_some']
      by_cases hts : lastE.ts = ts
      · rw [if_neg (by simp [hts])]
        simp [hts]
      · rw [if_pos hts]
        constructor
        · intro heq; exact absurd heq (concat_ne_self h _)
        · intro heq; simp at heq; exact absurd heq hts
  · intro h ts aqi hne
    cases hL : h.getLast? with
    | none => simp [appendHist, hL]
    | some lastE =>
      rw [hL] at hne
      have hts : lastE.ts ≠ ts := by
        intro hc
        exact hne (by rw [Option.map_some', hc])
      simp [appendHist, hL, hts]
  · intro h ts a1 a2
    cases hL : h.getLast? with
    | none =>
      have h0 : appendHist h ts a1 = h ++ [⟨ts, a1⟩] := by simp [appendHist, hL]
      rw [h0]
      simp [appendHist, List.getLast?_concat]
    | some lastE =>
      by_cases hts : lastE.ts = ts
      · have h0 : appendHist h ts a1 = h := by simp [appendHist, hL, hts]
        rw [h0]; simp [appendHist, hL, hts]
      · have h0 : appendHist h ts a1 = h ++ [⟨ts, a1⟩] := by simp [appendHist, hL, hts]
        rw [h0]
        simp [appendHist, List.getLast?_concat]
  · intro ts a1 a2
    simp [appendHist]

/-- Witness for `history_append_dedup`: a reading with a fresh timestamp is
appended at the end. -/
theorem history_append_dedup_witness :
    appendHist [⟨PyVal.int 1, PyVal.int 10⟩] (PyVal.int 2) (PyVal.int 20)
      = [⟨PyVal.int 1, PyVal.int 10⟩] ++ [⟨PyVal.int 2, PyVal.int 20⟩] :=
  history_append_dedup.2.1 [⟨PyVal.int 1, PyVal.int 10⟩] (PyVal.int 2) (PyVal.int 20)
    (by decide)

/-- C7 counterexample: a session whose readings carry timestamps 1, 2, 1
(a non-monotone upstream clock) stores two entries with the same
timestamp 1 — the dedup rule only compares against the most recent entry. -/
theorem history_duplicate_counterexample :
    (runAppends [(PyVal.int 1, PyVal.int 5), (PyVal.int 2, PyVal.int 6),
        (PyVal.int 1, PyVal.int 7)]).map HistEntry.ts
      = [PyVal.int 1, PyVal.int 2, PyVal.int 1] ∧
    ¬ ((runAppends [(PyVal.int 1, PyVal.int 5), (PyVal.int 2, PyVal.int 6),
        (PyVal.int 1, PyVal.int 7)]).map HistEntry.ts).Nodup :=
  ⟨by decide, by decide⟩

/-- In a `<`-sorted list every element is at most the last one. -/
theorem sorted_lt_le_getLast :
    ∀ (l : List Int) (y : Int), List.Sorted (· < ·) l → l.getLast? = some y →
      ∀ x ∈ l, x ≤ y := by
  intro l
  induction l with
  | nil => intro y _ hl; simp at hl
  | cons a t ih =>
    intro y hs hl x hx
    cases t with
    | nil =>
      simp at hl hx
      omega
    | cons b t2 =>
      rw [List.getLast?_cons_cons] at hl
      rw [List.sorted_cons] at hs
      obtain ⟨hab, hs2⟩ := hs
      rcases List.mem_cons.mp hx with rfl | hx2
      · have hb : b ≤ y := ih y hs2 hl b (List.mem_cons_self b t2)
        have hxb : x < b := hab b (List.mem_cons_self b t2)
        omega
      · exact ih y hs2 hl x hx2

/-- An element named by `getLast?` is a member. -/
theorem mem_of_getLast?_eq {α : Type} {l : List α} {a : α} (h : l.getLast? = some a) :
    a ∈ l := by
  obtain ⟨hne, rfl⟩ := List.mem_getLast?_eq_getLast (by rw [h]; rfl)
  exact List.getLast_mem hne

/-- Invariant of the append loop: starting from a ledger whose timestamps
are the strictly increasing integer list `l`, feeding it readings with
nondecreasing timestamps that all dominate `l` keeps the timestamp list
strictly increasing. -/
theorem appendHist_fold_sorted :
    ∀ (inputs : List (Int × PyVal)) (h : List HistEntry) (l : List Int),
      h.map HistEntry.ts = l.map PyVal.int →
      List.Sorted (· < ·) l →
      List.Sorted (· ≤ ·) (inputs.map Prod.fst) →
      (∀ x ∈ l, ∀ u ∈ inputs, x ≤ u.1) →
      ∃ l2 : List Int,
        (List.foldl (fun acc p => appendHist acc (PyVal.int p.1) p.2) h inputs).map
            HistEntry.ts
          = l2.map PyVal.int ∧ List.Sorted (· < ·) l2 := by
  intro inputs
  induction inputs with
  | nil => intro h l hm hs _ _; exact ⟨l, hm, hs⟩
  | cons p rest ih =>
    obtain ⟨t, a⟩ := p
    intro h l hm hs hins hfut
    simp only [List.foldl_cons]
    rw [List.map_cons, List.sorted_cons] at hins
    obtain ⟨hhead, hrest⟩ := hins
    cases hL : h.getLast? with
    | none =>
      have hhe : h = [] := List.getLast?_eq_none_iff.mp hL
      subst hhe
      have hl0 : l = [] := by
        cases l with
        | nil => rfl
        | cons x xs => simp at hm
      subst hl0
      have h1 : appendHist [] (PyVal.int t) a = [⟨PyVal.int t, a⟩] := by simp [appendHist]
      rw [h1]
      apply ih [⟨PyVal.int t, a⟩] [t] (by simp) (by simp) hrest
      intro x hx u hu
      simp at hx
      subst hx
      exact hhead u.1 (List.mem_map_of_mem Prod.fst hu)
    | some lastE =>
      have hml : (l.map PyVal.int).getLast? = some lastE.ts := by
        rw [← hm, List.getLast?_map, hL]
        rfl
      rw [List.getLast?_map] at hml
      have hex : ∃ lt, l.getLast? = some lt ∧ lastE.ts = PyVal.int lt := by
        cases hgl : l.getLast? with
        | none => rw [hgl] at hml; simp at hml
        | some lt => rw [hgl] at hml; simp at hml; exact ⟨lt, rfl, hml.symm⟩
      obtain ⟨lt, hlt, hts⟩ := hex
      have hltmem : lt ∈ l := mem_of_getLast?_eq hlt
      by_cases heq : lt = t
      · have h1 : appendHist h (PyVal.int t) a = h := by
          simp [appendHist, hL, hts, heq]
        rw [h1]
        apply ih h l hm hs hrest
        intro x hx u hu
        exact hfut x hx u (List.mem_cons_of_mem _ hu)
      · have h1 : appendHist h (PyVal.int t) a = h ++ [⟨PyVal.int t, a⟩] := by
          have hne : (PyVal.int lt) ≠ (PyVal.int t) := fun hc => heq (by injection hc)
          simp [appendHist, hL, hts, hne]
        rw [h1]
        refine ih (h ++ [{ ts := PyVal.int t, aqi := a }]) (l ++ [t]) ?_ ?_ hrest ?_
        · simp [hm]
        · apply List.pairwise_append.mpr
          refine ⟨hs, List.pairwise_singleton _ _, ?_⟩
          intro x hx y hy
          simp at hy
          rw [hy]
          have hxle : x ≤ lt := sorted_lt_le_getLast l lt hs hlt x hx
          have hltle : lt ≤ t := hfut lt hltmem (t, a) (List.mem_cons_self _ _)
          omega
        · intro x hx u hu
          rcases List.mem_append.mp hx with hx2 | hx2
          · exact hfut x hx2 u (List.mem_cons_of_mem _ hu)
          · simp at hx2
            subst hx2
            exact hhead u.1 (List.mem_map_of_mem Prod.fst hu)

/-- C7 (amended): under the monotone-upstream-clock assumption the spec
itself states — the successive readings carry nondecreasing timestamps —
the ledger never holds two entries with the same timestamp: an unchanged
timestamp is dropped by the no-op append. (Without that assumption the
dedup rule only compares against the most recent entry; see the
counterexample.) -/
theorem history_nodup_monotone :
    ∀ inputs : List (Int × PyVal),
      List.Sorted (· ≤ ·) (inputs.map Prod.fst) →
      ((runAppends (inputs.map (fun p => (PyVal.int p.1, p.2)))).map HistEntry.ts).Nodup := by
  intro inputs hsorted
  have hrw : runAppends (inputs.map (fun p => (PyVal.int p.1, p.2)))
      = List.foldl (fun acc p => appendHist acc (PyVal.int p.1) p.2) [] inputs := by
    simp [runAppends, List.foldl_map]
  rw [hrw]
  obtain ⟨l2, hmap, hs2⟩ :=
    appendHist_fold_sorted inputs [] [] (by simp) (by simp) hsorted (by simp)
  rw [hmap]
  exact hs2.nodup.map (fun a b hab => by injection hab)

/-- Witness for `history_nodup_monotone`: readings at timestamps 1, 1, 2
leave a duplicate-free ledger. -/
theorem history_nodup_monotone_witness :
    ((runAppends ([((1 : Int), PyVal.int 5), ((1 : Int), PyVal.int 6),
        ((2 : Int), PyVal.int 7)].map (fun p => (PyVal.int p.1, p.2)))).map
      HistEntry.ts).Nodup :=
  history_nodup_monotone [(1, PyVal.int 5), (1, PyVal.int 6), (2, PyVal.int 7)] (by decide)

/-- C3 counterexample: with the environment variable present but empty
(`WAQI_TOKEN=""`) and a secrets value available, resolution returns the
secrets value, not the environment value verbatim — presence alone does
not make the environment branch win, truthiness does. -/
theorem getToken_env_present_counterexample :
    getToken (some "") (some "s3cr3t") = .ok "s3cr3t" ∧
    (Except.ok "s3cr3t" : Except PyErr String) ≠ .ok "" :=
  ⟨by decide, by decide⟩

/-- C3 (amended): credential resolution order, with presence replaced by
non-emptiness for the environment branch: a non-empty environment value is
returned verbatim and the secrets store ignored; with the environment
unset or empty, a successful secrets lookup wins; otherwise resolution
fails, and every failure is the one fixed `RuntimeError`, never the
underlying cause. -/
theorem getToken_resolution_order :
    (∀ (t : String) (sec : Option String), t ≠ "" → getToken (some t) sec = .ok t) ∧
    (∀ v : String, getToken Option.none (some v) = .ok v) ∧
    (∀ v : String, getToken (some "") (some v) = .ok v) ∧
    getToken Option.none Option.none
      = .error (.runtimeError
          "WAQI_TOKEN not found in environment variables or Streamlit secrets") ∧
    getToken (some "") Option.none
      = .error (.runtimeError
          "WAQI_TOKEN not found in environment variables or Streamlit secrets") ∧
    (∀ (env sec : Option String) (e : PyErr),
        getToken env sec = .error e →
        e = .runtimeError
          "WAQI_TOKEN not found in environment variables or Streamlit secrets") := by
  refine ⟨?_, ?_, ?_, by decide, by decide, ?_⟩
  · intro t sec ht
    simp [getToken, ht]
  · intro v; rfl
  · intro v; rfl
  · intro env sec e he
    cases env with
    | none =>
      cases sec with
      | none =>
        simp [getToken, getTokenSecrets] at he
        exact he.symm
      | some v => simp [getToken, getTokenSecrets] at he
    | some t =>
      by_cases ht : t = ""
      · subst ht
        cases sec with
        | none =>
          simp [getToken, getTokenSecrets] at he
          exact he.symm
        | some v => simp [getToken, getTokenSecrets] at he
      · simp [getToken, ht] at he

/-- Witness for `getToken_resolution_order`: a non-empty environment token
wins, and the both-absent failure carries the fixed message. -/
theorem getToken_resolution_order_witness :
    getToken (some "abc") (some "zzz") = .ok "abc" ∧
    (PyErr.runtimeError "WAQI_TOKEN not found in environment variables or Streamlit secrets"
      = PyErr.runtimeError
          "WAQI_TOKEN not found in environment variables or Streamlit secrets") :=
  ⟨getToken_resolution_order.1 "abc" (some "zzz") (by decide),
   getToken_resolution_order.2.2.2.2.2 Option.none Option.none _ (by decide)⟩

/-- C9: an empty-string `WAQI_TOKEN` environment value is treated exactly
like an unset variable — the truthiness check skips the environment branch
and resolution proceeds with the secrets fallback, so an empty-string token
is never returned from the environment branch. -/
theorem getToken_empty_env_falls_through :
    ∀ sec : Option String,
      getToken (some "") sec = getTokenSecrets sec ∧
      getToken (some "") sec = getToken Option.none sec := by
  intro sec
  exact ⟨rfl, rfl⟩

/-- C4: over a successful transport (HTTP 200), a payload whose top-level
status field is not the literal `"ok"` makes the Source Client raise its
`RuntimeError` carrying the stringified embedded `data` detail; a payload
with status `"ok"` is returned unchanged and nothing is raised. -/
theorem fetch_aqi_status_check :
    ∀ (resp : HttpResponse) (es : List (String × PyVal)) (s : PyVal),
      resp.statusCode = 200 →
      resp.body = PyVal.dict es →
      lookupStr es "status" = some s →
      (s ≠ PyVal.str "ok" →
        fetch_aqi resp
          = .error (.runtimeError (pyStr ((lookupStr es "data").getD PyVal.none)))) ∧
      (s = PyVal.str "ok" → fetch_aqi resp = .ok resp.body) := by
  intro resp es s hcode hbody hlook
  have h1 : raise_for_status resp = .ok () := by
    simp [raise_for_status, hcode]
  have h2 : getItem resp.body "status" = .ok s := by
    rw [hbody]; simp [getItem, hlook]
  rw [hbody] at h2
  constructor
  · intro hne
    simp [fetch_aqi, h1, h2, hbody, hne, pyGet, Bind.bind, Except.bind]
  · intro hok
    simp [fetch_aqi, h1, h2, hbody, hok, Bind.bind, Except.bind]

/-- Witness for `fetch_aqi_status_check`: a 200 response with status
`"error"` raises the detail-carrying error; one with status `"ok"` is
returned as is. -/
theorem fetch_aqi_status_check_witness :
    fetch_aqi ⟨200, PyVal.dict [("status", PyVal.str "error"),
        ("data", PyVal.str "Invalid key")]⟩
      = .error (.runtimeError "Invalid key") ∧
    fetch_aqi ⟨200, PyVal.dict [("status", PyVal.str "ok")]⟩
      = .ok (PyVal.dict [("status", PyVal.str "ok")]) := by
  constructor
  · exact (fetch_aqi_status_check
      ⟨200, PyVal.dict [("status", PyVal.str "error"), ("data", PyVal.str "Invalid key")]⟩
      [("status", PyVal.str "error"), ("data", PyVal.str "Invalid key")]
      (PyVal.str "error") rfl rfl (by decide)).1 (by decide)
  · exact (fetch_aqi_status_check
      ⟨200, PyVal.dict [("status", PyVal.str "ok")]⟩
      [("status", PyVal.str "ok")] (PyVal.str "ok") rfl rfl (by decide)).2 rfl

/-- An `Except` bind produces `ok` exactly when both steps do. -/
theorem except_bind_ok {ε α β : Type} (x : Except ε α) (f : α → Except ε β) (b : β) :
    (x >>= f) = .ok b ↔ ∃ a, x = .ok a ∧ f a = .ok b := by
  cases x with
  | error e => simp [Bind.bind, Except.bind]
  | ok a => simp [Bind.bind, Except.bind]

/-- Membership after a Python-style dict insert: the entry was already
there or is the inserted pair. -/
theorem mem_dictInsert :
    ∀ (es : List (String × PyVal)) (k : String) (v : PyVal) (kv : String × PyVal),
      kv ∈ dictInsert es k v → kv ∈ es ∨ kv = (k, v) := by
  intro es k v
  induction es with
  | nil =>
    intro kv h
    simp [dictInsert] at h
    right
    simp [h]
  | cons e rest ih =>
    intro kv h
    obtain ⟨k0, v0⟩ := e
    by_cases hk : k0 = k
    · simp only [dictInsert, if_pos hk] at h
      rcases List.mem_cons.mp h with rfl | hm
      · right; rw [hk]
      · left; exact List.mem_cons_of_mem _ hm
    · simp only [dictInsert, if_neg hk] at h
      rcases List.mem_cons.mp h with rfl | hm
      · left; exact List.mem_cons_self _ _
      · rcases ih kv hm with hm2 | hm2
        · left; exact List.mem_cons_of_mem _ hm2
        · right; exact hm2

/-- Every key the component comprehension produces is the upper-casing of
some string. -/
theorem buildComps_keys_upper :
    ∀ (ies acc comps : List (String × PyVal)),
      (∀ kv ∈ acc, ∃ k0, kv.1 = pyUpper k0) →
      buildComps acc ies = .ok comps →
      ∀ kv ∈ comps, ∃ k0, kv.1 = pyUpper k0 := by
  intro ies
  induction ies with
  | nil =>
    intro acc comps hacc heq
    simp [buildComps] at heq
    rw [← heq]
    exact hacc
  | cons e rest ih =>
    intro acc comps hacc heq
    obtain ⟨k, v⟩ := e
    simp only [buildComps] at heq
    rw [except_bind_ok] at heq
    obtain ⟨c, _, hrec⟩ := heq
    refine ih (dictInsert acc (pyUpper k) c) comps ?_ hrec
    intro kv hkv
    rcases mem_dictInsert _ _ _ _ hkv with hm | hm
    · exact hacc kv hm
    · exact ⟨k, by rw [hm]⟩

/-- Shape of every accepted payload: upper-cased component keys, overall
index and coordinates taken verbatim from the source fields, and an absent
`iaqi` key giving an empty component map. -/
theorem fetch_live_ok_shape :
    ∀ (raw : PyVal) (snap : Snapshot),
      fetch_live raw = .ok snap →
      (∀ kv ∈ snap.comps, ∃ k0, kv.1 = pyUpper k0) ∧
      (∃ d, getItem raw "data" = .ok d ∧
        getItem d "aqi" = .ok snap.aqi ∧
        (∃ city geo, getItem d "city" = .ok city ∧ getItem city "geo" = .ok geo ∧
          unpack2 geo = .ok (snap.lat, snap.lon)) ∧
        (∀ es, d = PyVal.dict es → lookupStr es "iaqi" = Option.none →
          snap.comps = [])) := by
  intro raw snap h
  simp only [fetch_live] at h
  rw [except_bind_ok] at h
  obtain ⟨d, hd, h⟩ := h
  rw [except_bind_ok] at h
  obtain ⟨t, ht, h⟩ := h
  rw [except_bind_ok] at h
  obtain ⟨tv, htv, h⟩ := h
  rw [except_bind_ok] at h
  obtain ⟨aqiV, haqi, h⟩ := h
  rw [except_bind_ok] at h
  obtain ⟨ia, hia, h⟩ := h
  rw [except_bind_ok] at h
  obtain ⟨comps, hcomps, h⟩ := h
  rw [except_bind_ok] at h
  obtain ⟨city, hcity, h⟩ := h
  rw [except_bind_ok] at h
  obtain ⟨geo, hgeo, h⟩ := h
  rw [except_bind_ok] at h
  obtain ⟨p, hp, h⟩ := h
  obtain ⟨lat, lon⟩ := p
  simp only [pure, Except.pure] at h
  injection h with h
  subst h
  refine ⟨?_, d, hd, haqi, ⟨city, geo, hcity, hgeo, hp⟩, ?_⟩
  · intro kv hkv
    cases ia with
    | dict ies =>
      simp only [compsOf] at hcomps
      exact buildComps_keys_upper ies [] comps (by simp) hcomps kv hkv
    | none => simp [compsOf] at hcomps
    | str s => simp [compsOf] at hcomps
    | int n => simp [compsOf] at hcomps
    | list xs => simp [compsOf] at hcomps
  · intro es hdeq hnone
    rw [hdeq] at hia
    simp only [pyGet, hnone] at hia
    injection hia with hia
    rw [← hia] at hcomps
    simp only [compsOf, buildComps] at hcomps
    injection hcomps with hcomps
    exact hcomps.symm

/-- A payload whose required fields are well-shaped but which carries no
`iaqi` key at all is accepted: it normalizes to a snapshot with an empty
component map, not to an error. -/
theorem fetch_live_no_iaqi_accepts :
    ∀ (raw : PyVal) (es : List (String × PyVal)) (t tv a city geo la lo : PyVal),
      getItem raw "data" = .ok (PyVal.dict es) →
      lookupStr es "time" = some t → getItem t "v" = .ok tv →
      lookupStr es "aqi" = some a →
      lookupStr es "iaqi" = Option.none →
      lookupStr es "city" = some city →
      getItem city "geo" = .ok geo →
      unpack2 geo = .ok (la, lo) →
      fetch_live raw = .ok ⟨tv, a, [], la, lo⟩ := by
  intro raw es t tv a city geo la lo hd ht htv ha hia hcity hgeo hun
  have h1 : getItem (PyVal.dict es) "time" = .ok t := by simp [getItem, ht]
  have h2 : getItem (PyVal.dict es) "aqi" = .ok a := by simp [getItem, ha]
  have h3 : pyGet (PyVal.dict es) "iaqi" (PyVal.dict []) = .ok (PyVal.dict []) := by
    simp [pyGet, hia]
  have h5 : getItem (PyVal.dict es) "city" = .ok city := by simp [getItem, hcity]
  simp [fetch_live, hd, h1, htv, h2, h3, compsOf, buildComps, h5, hgeo, hun,
    Bind.bind, Except.bind, pure, Except.pure]

/-- C5: for every payload the normalizer accepts, the resulting snapshot
has only upper-cased component keys and its overall index and coordinates
are the source fields unchanged (`data.aqi`, the two elements of
`data.city.geo`); and every payload whose required fields are well-shaped
but which has no `iaqi` breakdown at all is accepted — it normalizes to a
snapshot with an empty component map, not to an error. -/
theorem fetch_live_normalization :
    (∀ (raw : PyVal) (snap : Snapshot),
      fetch_live raw = .ok snap →
      (∀ kv ∈ snap.comps, ∃ k0, kv.1 = pyUpper k0) ∧
      (∃ d, getItem raw "data" = .ok d ∧
        getItem d "aqi" = .ok snap.aqi ∧
        (∃ city geo, getItem d "city" = .ok city ∧ getItem city "geo" = .ok geo ∧
          unpack2 geo = .ok (snap.lat, snap.lon)) ∧
        (∀ es, d = PyVal.dict es → lookupStr es "iaqi" = Option.none →
          snap.comps = []))) ∧
    (∀ (raw : PyVal) (es : List (String × PyVal)) (t tv a city geo la lo : PyVal),
      getItem raw "data" = .ok (PyVal.dict es) →
      lookupStr es "time" = some t → getItem t "v" = .ok tv →
      lookupStr es "aqi" = some a →
      lookupStr es "iaqi" = Option.none →
      lookupStr es "city" = some city →
      getItem city "geo" = .ok geo →
      unpack2 geo = .ok (la, lo) →
      fetch_live raw = .ok ⟨tv, a, [], la, lo⟩) :=
  ⟨fetch_live_ok_shape, fetch_live_no_iaqi_accepts⟩

/-- Witness for `fetch_live_normalization`: the shape arm on
`samplePayload`, and the acceptance arm on the iaqi-less `sampleNoIaqi`,
which normalizes to an empty component map rather than erroring. -/
theorem fetch_live_normalization_witness :
    ((∀ kv ∈ sampleSnap.comps, ∃ k0, kv.1 = pyUpper k0) ∧
    (∃ d, getItem samplePayload "data" = .ok d ∧
      getItem d "aqi" = .ok sampleSnap.aqi ∧
      (∃ city geo, getItem d "city" = .ok city ∧ getItem city "geo" = .ok geo ∧
        unpack2 geo = .ok (sampleSnap.lat, sampleSnap.lon)) ∧
      (∀ es, d = PyVal.dict es → lookupStr es "iaqi" = Option.none →
        sampleSnap.comps = []))) ∧
    fetch_live sampleNoIaqi
      = .ok ⟨PyVal.int 100, PyVal.int 42, [], PyVal.int 36, PyVal.int 30⟩ :=
  ⟨fetch_live_normalization.1 samplePayload sampleSnap (by decide),
   fetch_live_normalization.2 sampleNoIaqi
     [("time", PyVal.dict [("v", PyVal.int 100)]), ("aqi", PyVal.int 42),
      ("city", PyVal.dict [("geo", PyVal.list [PyVal.int 36, PyVal.int 30])])]
     (PyVal.dict [("v", PyVal.int 100)]) (PyVal.int 100) (PyVal.int 42)
     (PyVal.dict [("geo", PyVal.list [PyVal.int 36, PyVal.int 30])])
     (PyVal.list [PyVal.int 36, PyVal.int 30]) (PyVal.int 36) (PyVal.int 30)
     rfl (by decide) (by decide) (by decide) (by decide) (by decide) (by decide)
     (by decide)⟩

/-- C6 counterexample: a payload whose `data` lacks the required `time`
field makes the normalizer fail with the generic built-in `KeyError` —
exactly the fault any missing dict key raises — not with a dedicated
`MalformedPayloadError` type distinct from generic runtime faults. -/
theorem fetch_live_missing_field_counterexample :
    fetch_live (PyVal.dict [("data", PyVal.dict [("aqi", PyVal.int 42),
        ("city", PyVal.dict [("geo", PyVal.list [PyVal.int 36, PyVal.int 30])])])])
      = .error (.keyError "time") ∧
    (PyErr.keyError "time").isGenericFault = true :=
  ⟨by decide, by decide⟩

/-- C6 (amended): a payload missing `data.time`, `data.aqi`, or
`data.city.geo` does make the normalizer fail — but with Python's generic
`KeyError` for the missing key (a generic runtime fault raised by the
untyped nested access), not with a dedicated `MalformedPayloadError`. -/
theorem fetch_live_missing_field_generic_error :
    ∀ (raw : PyVal) (es : List (String × PyVal)),
      getItem raw "data" = .ok (PyVal.dict es) →
      (lookupStr es "time" = Option.none →
        fetch_live raw = .error (.keyError "time") ∧
        (PyErr.keyError "time").isGenericFault = true) ∧
      (∀ t tv, lookupStr es "time" = some t → getItem t "v" = .ok tv →
        lookupStr es "aqi" = Option.none →
        fetch_live raw = .error (.keyError "aqi") ∧
        (PyErr.keyError "aqi").isGenericFault = true) ∧
      (∀ t tv a comps cs, lookupStr es "time" = some t → getItem t "v" = .ok tv →
        lookupStr es "aqi" = some a →
        compsOf ((lookupStr es "iaqi").getD (PyVal.dict [])) = .ok comps →
        lookupStr es "city" = some (PyVal.dict cs) →
        lookupStr cs "geo" = Option.none →
        fetch_live raw = .error (.keyError "geo") ∧
        (PyErr.keyError "geo").isGenericFault = true) := by
  intro raw es hd
  refine ⟨?_, ?_, ?_⟩
  · intro htn
    have h1 : getItem (PyVal.dict es) "time" = .error (.keyError "time") := by
      simp [getItem, htn]
    refine ⟨?_, rfl⟩
    simp [fetch_live, hd, h1, Bind.bind, Except.bind]
  · intro t tv ht htv han
    have h1 : getItem (PyVal.dict es) "time" = .ok t := by simp [getItem, ht]
    have h2 : getItem (PyVal.dict es) "aqi" = .error (.keyError "aqi") := by
      simp [getItem, han]
    refine ⟨?_, rfl⟩
    simp [fetch_live, hd, h1, htv, h2, Bind.bind, Except.bind]
  · intro t tv a comps cs ht htv ha hcomps hcity hgn
    have h1 : getItem (PyVal.dict es) "time" = .ok t := by simp [getItem, ht]
    have h2 : getItem (PyVal.dict es) "aqi" = .ok a := by simp [getItem, ha]
    have h3 : pyGet (PyVal.dict es) "iaqi" (PyVal.dict [])
        = .ok ((lookupStr es "iaqi").getD (PyVal.dict [])) := by simp [pyGet]
    have h4 : getItem (PyVal.dict es) "city" = .ok (PyVal.dict cs) := by
      simp [getItem, hcity]
    have h5 : getItem (PyVal.dict cs) "geo" = .error (.keyError "geo") := by
      simp [getItem, hgn]
    refine ⟨?_, rfl⟩
    simp [fetch_live, hd, h1, htv, h2, h3, hcomps, h4, h5, Bind.bind, Except.bind]

/-- Witness for `fetch_live_missing_field_generic_error`: concrete payloads
missing `time`, `aqi`, and `geo` respectively. -/
theorem fetch_live_missing_field_generic_error_witness :
    (fetch_live (PyVal.dict [("data", PyVal.dict [("aqi", PyVal.int 1)])])
      = .error (.keyError "time") ∧
      (PyErr.keyError "time").isGenericFault = true) ∧
    (fetch_live (PyVal.dict [("data", PyVal.dict
        [("time", PyVal.dict [("v", PyVal.int 9)])])])
      = .error (.keyError "aqi") ∧
      (PyErr.keyError "aqi").isGenericFault = true) ∧
    (fetch_live (PyVal.dict [("data", PyVal.dict
        [("time", PyVal.dict [("v", PyVal.int 9)]), ("aqi", PyVal.int 1),
         ("city", PyVal.dict [])])])
      = .error (.keyError "geo") ∧
      (PyErr.keyError "geo").isGenericFault = true) :=
  ⟨(fetch_live_missing_field_generic_error
      (PyVal.dict [("data", PyVal.dict [("aqi", PyVal.int 1)])])
      [("aqi", PyVal.int 1)] rfl).1 (by decide),
   (fetch_live_missing_field_generic_error
      (PyVal.dict [("data", PyVal.dict [("time", PyVal.dict [("v", PyVal.int 9)])])])
      [("time", PyVal.dict [("v", PyVal.int 9)])] rfl).2.1
      (PyVal.dict [("v", PyVal.int 9)]) (PyVal.int 9) (by decide) (by decide) (by decide),
   (fetch_live_missing_field_generic_error
      (PyVal.dict [("data", PyVal.dict
        [("time", PyVal.dict [("v", PyVal.int 9)]), ("aqi", PyVal.int 1),
         ("city", PyVal.dict [])])])
      [("time", PyVal.dict [("v", PyVal.int 9)]), ("aqi", PyVal.int 1),
       ("city", PyVal.dict [])] rfl).2.2
      (PyVal.dict [("v", PyVal.int 9)]) (PyVal.int 9) (PyVal.int 1) [] []
      (by decide) (by decide) (by decide) (by decide) (by decide) (by decide)⟩

/-- C8 counterexample: the credential failure (the ConfigurationError of
the taxonomy) and the Source Client rejection (its SourceRejectedError)
are both raised as the same Python exception class `RuntimeError`, so the
four taxonomy members are not pairwise distinguishable at the point they
are raised. -/
theorem error_kinds_counterexample :
    getToken Option.none Option.none
      = .error (.runtimeError
          "WAQI_TOKEN not found in environment variables or Streamlit secrets") ∧
    fetch_aqi ⟨200, PyVal.dict [("status", PyVal.str "error"),
        ("data", PyVal.str "Invalid key")]⟩
      = .error (.runtimeError "Invalid key") ∧
    PyErr.cls (.runtimeError
        "WAQI_TOKEN not found in environment variables or Streamlit secrets")
      = PyErr.cls (.runtimeError "Invalid key") :=
  ⟨by decide, by decide, by decide⟩

/-- C8 (amended): the two failure channels of the Source Client are
distinguishable — transport failures raise `HTTPError` while payload
rejections raise `RuntimeError` — and the generic `KeyError` of a
malformed payload differs from both; but the credential failure also
raises `RuntimeError`, so ConfigurationError and SourceRejectedError are
not distinguishable by exception kind. -/
theorem error_kinds_partial_distinguishability :
    (∀ resp : HttpResponse, 400 ≤ resp.statusCode → resp.statusCode < 600 →
        fetch_aqi resp = .error (.httpError resp.statusCode)) ∧
    (∀ (resp : HttpResponse) (es : List (String × PyVal)) (s : PyVal) (e : PyErr),
        resp.statusCode = 200 → resp.body = PyVal.dict es →
        lookupStr es "status" = some s → s ≠ PyVal.str "ok" →
        fetch_aqi resp = .error e → e.cls = .runtimeError) ∧
    (∀ (env sec : Option String) (e : PyErr),
        getToken env sec = .error e → e.cls = .runtimeError) ∧
    PyErrClass.httpError ≠ PyErrClass.runtimeError ∧
    PyErrClass.keyError ≠ PyErrClass.runtimeError ∧
    PyErrClass.keyError ≠ PyErrClass.httpError := by
  refine ⟨?_, ?_, ?_, by decide, by decide, by decide⟩
  · intro resp h4 h6
    have h1 : raise_for_status resp = .error (.httpError resp.statusCode) := by
      simp [raise_for_status, h4, h6]
    simp [fetch_aqi, h1, Bind.bind, Except.bind]
  · intro resp es s e hcode hbody hlook hne hfa
    have h1 : raise_for_status resp = .ok () := by
      simp [raise_for_status, hcode]
    have h2 : getItem (PyVal.dict es) "status" = .ok s := by
      simp [getItem, hlook]
    have hval : fetch_aqi resp
        = .error (.runtimeError (pyStr ((lookupStr es "data").getD PyVal.none))) := by
      simp [fetch_aqi, h1, hbody, h2, hne, pyGet, Bind.bind, Except.bind]
    rw [hval] at hfa
    injection hfa with hfa
    rw [← hfa]
    rfl
  · intro env sec e he
    cases env with
    | none =>
      cases sec with
      | none =>
        simp [getToken, getTokenSecrets] at he
        rw [← he]
        rfl
      | some v => simp [getToken, getTokenSecrets] at he
    | some t =>
      by_cases ht : t = ""
      · subst ht
        cases sec with
        | none =>
          simp [getToken, getTokenSecrets] at he
          rw [← he]
          rfl
        | some v => simp [getToken, getTokenSecrets] at he
      · simp [getToken, ht] at he

/-- Witness for `error_kinds_partial_distinguishability`: a 404 transport
failure, a payload rejection, and a credential failure at concrete inputs. -/
theorem error_kinds_partial_distinguishability_witness :
    fetch_aqi ⟨404, PyVal.none⟩ = .error (.httpError 404) ∧
    (PyErr.runtimeError "Invalid key").cls = PyErrClass.runtimeError ∧
    (PyErr.runtimeError
        "WAQI_TOKEN not found in environment variables or Streamlit secrets").cls
      = PyErrClass.runtimeError :=
  ⟨error_kinds_partial_distinguishability.1 ⟨404, PyVal.none⟩ (by decide) (by decide),
   error_kinds_partial_distinguishability.2.1
     ⟨200, PyVal.dict [("status", PyVal.str "error"), ("data", PyVal.str "Invalid key")]⟩
     [("status", PyVal.str "error"), ("data", PyVal.str "Invalid key")]
     (PyVal.str "error") (.runtimeError "Invalid key") rfl rfl (by decide) (by decide)
     (by decide),
   error_kinds_partial_distinguishability.2.2.1 Option.none Option.none
     (.runtimeError "WAQI_TOKEN not found in environment variables or Streamlit secrets")
     (by decide)⟩
